import Mathlib

set_option maxRecDepth 100000

/-!
Shallow embedding of the outlook-chatbot retrieval-routing and tabular-reasoning
subsystem, translated from the Python sources under backend/rag and be/rag,
together with theorems settling the specification claims.

External collaborators (the generative model, the embedding provider, the HTTP
client, pandas rendering of data-frame previews, and the md5 digest) are taken
as explicit function parameters, exactly as the specification treats them
(capability interfaces); every operation whose semantics a claim depends on is
implemented concretely.
-/

/- ----------------------------------------------------------------
   backend/rag/router.py
   ---------------------------------------------------------------- -/

/-- The four routing labels of backend/rag/router.py (the Route Literal). -/
inductive Route
  | mail_body_semantic
  | attachment_tabular
  | attachment_semantic
  | unknown
deriving DecidableEq

/-- Python substring test: `pat in hay`. -/
def strContains (hay pat : String) : Bool := decide (pat.data <:+: hay.data)

/-- Python `str.lower()` (ASCII case mapping; the inputs here are ASCII). -/
def pyLower (s : String) : String := String.mk (s.data.map Char.toLower)

/-- Python `str.strip()` with no argument: whitespace removed from both ends. -/
def pyStrip (s : String) : String :=
  String.mk (((s.data.dropWhile Char.isWhitespace).reverse.dropWhile Char.isWhitespace).reverse)

/-- Python `str.endswith(suffix)`. -/
def strEndsWith (s suff : String) : Bool := decide (suff.data <:+ s.data)

/-- Lexicographic comparison by code point (Python `<` on str). -/
def charListLt : List Char → List Char → Bool
  | [], [] => false
  | [], _ :: _ => true
  | _ :: _, [] => false
  | a :: as, b :: bs =>
    if a.toNat < b.toNat then true
    else if b.toNat < a.toNat then false
    else charListLt as bs

def strLt (s t : String) : Bool := charListLt s.data t.data

/-- TABULAR_HINTS tuple of backend/rag/router.py. -/
def TABULAR_HINTS : List String :=
  ["sum", "average", "avg", "mean", "median", "max", "min", "count", "top", "trend",
   "by ", "group", "grouped", "aggregate", "pivot", "table", "sheet", "excel", "csv",
   "filter", "where", "per ", "vs ", "compare", "correlation"]

/-- Function `_classify_intent_heuristic` of backend/rag/router.py.  Confidences are
modelled as rationals. -/
def _classify_intent_heuristic (question : String) : Route × ℚ :=
  let q := pyLower question
  if pyStrip q = "" then (Route.unknown, 0)
  else if TABULAR_HINTS.any (fun h => strContains q h) then (Route.attachment_tabular, 7/10)
  else if strContains q "attachment" || strContains q "pdf" then (Route.attachment_semantic, 6/10)
  else (Route.mail_body_semantic, 6/10)

/-- The `labels` list inside `_classify_intent_llm`. -/
def labels : List String :=
  ["mail_body_semantic", "attachment_tabular", "attachment_semantic", "unknown"]

def routeOfLabel (s : String) : Route :=
  if s = "mail_body_semantic" then Route.mail_body_semantic
  else if s = "attachment_tabular" then Route.attachment_tabular
  else if s = "attachment_semantic" then Route.attachment_semantic
  else Route.unknown

/-- Outcome of the generative call plus JSON extraction inside
`_classify_intent_llm`: either the JSON object parsed (route string and
confidence number extracted), or parsing raised and the raw response text is
handled by plain label detection. -/
inductive LLMOutcome
  | parsed (route : String) (conf : ℚ)
  | unparsed (text : String)

/-- Normalisation stage of `_classify_intent_llm` (router.py lines 59-89): label
coercion into `labels`, confidence clamping, and the plain-label-detection
fallback on malformed JSON. -/
def _classify_intent_llm (o : LLMOutcome) : Route × ℚ :=
  match o with
  | LLMOutcome.parsed r c =>
      let r1 := pyStrip r
      let r2 := if labels.contains r1 then r1 else "unknown"
      (routeOfLabel r2, max 0 (min 1 c))
  | LLMOutcome.unparsed t =>
      let tl := pyLower t
      if strContains tl "attachment_tabular" then (Route.attachment_tabular, 6/10)
      else if strContains tl "attachment_semantic" then (Route.attachment_semantic, 6/10)
      else if strContains tl "mail_body_semantic" || strContains tl "mail" then
        (Route.mail_body_semantic, 6/10)
      else (Route.unknown, 4/10)

/-- Function `classify_intent` of backend/rag/router.py.  `primary = none` models any
exception raised on the primary path (missing key, network failure, provider
error); `some o` models a completed generative call with outcome `o`. -/
def classify_intent (primary : Option LLMOutcome) (question : String) : Route × ℚ :=
  match primary with
  | some o => _classify_intent_llm o
  | none => _classify_intent_heuristic question

/- ----------------------------------------------------------------
   be/rag/data_cache.py (blob byte cache)
   ---------------------------------------------------------------- -/

/-- Function `_cache_key` of be/rag/data_cache.py; `digest` stands for the external
`hashlib.md5(...).hexdigest()`. -/
def _cache_key (digest : String → String) (blob_uri filename : String) : String :=
  digest (blob_uri ++ ":" ++ filename)

/-- Function `cache_blob_data`: the module-level dict `_data_cache` is modelled as an
association list in which an assignment prepends its binding (lookup sees the
newest binding first, matching dict overwrite semantics). -/
def cache_blob_data (digest : String → String) (blob_uri filename : String)
    (data : List ℕ) (st : List (String × List ℕ)) : List (String × List ℕ) :=
  (_cache_key digest blob_uri filename, data) :: st

/-- Function `get_cached_blob_data` of be/rag/data_cache.py (the `if data:` there only
guards a log line; the lookup result is returned unconditionally). -/
def get_cached_blob_data (digest : String → String) (blob_uri filename : String)
    (st : List (String × List ℕ)) : Option (List ℕ) :=
  st.lookup (_cache_key digest blob_uri filename)

/- ----------------------------------------------------------------
   backend/rag/parsers.py : chunk_text
   ---------------------------------------------------------------- -/

/-- Worker for `pyWords`: accumulates the current word (reversed) while
scanning. -/
def pyWordsAux : List Char → List Char → List (List Char)
  | [], acc => if acc = [] then [] else [acc.reverse]
  | c :: cs, acc =>
    if c.isWhitespace then
      if acc = [] then pyWordsAux cs [] else acc.reverse :: pyWordsAux cs []
    else pyWordsAux cs (c :: acc)

/-- Python `str.split()` with no argument: split on whitespace runs, dropping
empty pieces. -/
def pyWords (cs : List Char) : List (List Char) := pyWordsAux cs []

/-- Python `" ".join(ws)` on character lists. -/
def joinSpace : List (List Char) → List Char
  | [] => []
  | [w] => w
  | w :: ws => w ++ (Char.ofNat 32) :: joinSpace ws

/-- The while-loop of `chunk_text`, with an explicit fuel bound (the source
loop has no structural decrease; for the default parameters the fuel
`words.length` is shown sufficient below).  `max(0, end - overlap)` is the
truncated subtraction on ℕ. -/
def chunkLoop (ws : List (List Char)) (maxWords overlap : ℕ) : ℕ → ℕ → List (List Char)
  | 0, _ => []
  | fuel + 1, start =>
    if start < ws.length then
      let e := min ws.length (start + maxWords)
      let chunk := joinSpace ((ws.drop start).take (e - start))
      if e = ws.length then [chunk]
      else chunk :: chunkLoop ws maxWords overlap fuel (e - overlap)
    else []

/-- Function `chunk_text` of backend/rag/parsers.py. -/
def chunk_text (text : String) (maxWords overlap : ℕ) : List String :=
  let ws := pyWords text.data
  if ws = [] then []
  else (chunkLoop ws maxWords overlap ws.length 0).map String.mk

/- ----------------------------------------------------------------
   Tabular data model (pandas DataFrames restricted to the operations
   the agents use: scalar cells, label-addressed columns)
   ---------------------------------------------------------------- -/

/-- A scalar cell: a string, a number, or a missing value (NaN/None).  Numeric
cells are modelled as integers: every numeric column exercised by the claims
loads as pandas int64, whose sums stay integral; the only non-integral values
(means) are exact num/den pairs carried through the `format2f`/`format1f`
renderers below. -/
inductive Cell
  | s (v : String)
  | n (v : ℤ)
  | null
deriving DecidableEq

/-- A data frame: ordered column names and ordered rectangular rows. -/
structure DF where
  cols : List String
  rows : List (List Cell)
deriving DecidableEq

def isNullC : Cell → Bool
  | Cell.null => true
  | _ => false

def isNumCell : Cell → Bool
  | Cell.n _ => true
  | _ => false

def cellNum : Cell → ℤ
  | Cell.n q => q
  | _ => 0

/-- Digits of a natural number grouped in threes from the right (input and
output reversed); models the thousands separator of Python format spec ","
(Char.ofNat 44 is the comma). -/
def group3 : List Char → List Char
  | d1 :: d2 :: d3 :: d4 :: rest => d1 :: d2 :: d3 :: (Char.ofNat 44) :: group3 (d4 :: rest)
  | l => l

def commaGroup (n : ℕ) : String := String.mk ((group3 (toString n).data.reverse).reverse)

def twoDigits (n : ℕ) : String := (if n < 10 then "0" else "") ++ toString n

/-- Python `format(num/den, ",.2f")` for the exact value num/den (den > 0 at
every call site): two decimals, comma-grouped integer part.  The hundredths
digit rounds half away from zero; for the values arising below the binary
floats of CPython never sit on an exact tie, so the results coincide.
`floor(|num|/den * 100 + 1/2)` is `(200*|num| + den) / (2*den)` on ℕ. -/
def format2f (num : ℤ) (den : ℕ) : String :=
  let cents := (200 * num.natAbs + den) / (2 * den)
  (if num < 0 then "-" else "") ++ commaGroup (cents / 100) ++ "." ++ twoDigits (cents % 100)

/-- Python `format(num/den, ".1f")`. -/
def format1f (num : ℤ) (den : ℕ) : String :=
  let tenths := (20 * num.natAbs + den) / (2 * den)
  (if num < 0 then "-" else "") ++ toString (tenths / 10) ++ "." ++ toString (tenths % 10)

/-- Python `str(x)` for a cell (int64 values print like Python ints). -/
def cellStr : Cell → String
  | Cell.s v => v
  | Cell.n q => toString q
  | Cell.null => "nan"

/-- Python `repr(x)` for a cell, as used when a dict is rendered inside an
f-string (strings get quotes; 0x27 is the single quote). -/
def cellRepr : Cell → String
  | Cell.s v => "\x27" ++ v ++ "\x27"
  | Cell.n q => toString q
  | Cell.null => "nan"

def uniqFirstAux {α : Type} [DecidableEq α] : List α → List α → List α
  | [], _ => []
  | a :: l, seen => if a ∈ seen then uniqFirstAux l seen else a :: uniqFirstAux l (a :: seen)

/-- Distinct values in order of first appearance (pandas `Series.unique`). -/
def uniqFirst {α : Type} [DecidableEq α] (l : List α) : List α := uniqFirstAux l []

/-- pandas `Series.nunique`: distinct non-null count. -/
def nunique (vals : List Cell) : ℕ :=
  (uniqFirst (vals.filter (fun c => !(isNullC c)))).length

/-- Stable insertion sort: `gt x y` means x must come strictly before y; ties
keep input order. -/
def insertByAux {α : Type} (gt : α → α → Bool) (x : α) : List α → List α
  | [] => [x]
  | y :: ys => if gt x y then x :: y :: ys else y :: insertByAux gt x ys

def sortByStable {α : Type} (gt : α → α → Bool) (l : List α) : List α :=
  l.foldl (fun acc x => insertByAux gt x acc) []

/-- Value ordering used by pandas sorts (string and numeric keys). -/
def cellLtB : Cell → Cell → Bool
  | Cell.s a, Cell.s b => strLt a b
  | Cell.n a, Cell.n b => decide (a < b)
  | _, _ => false

/-- pandas `Series.value_counts()`: non-null distinct values with counts,
sorted by count descending. -/
def valueCounts (vals : List Cell) : List (Cell × ℕ) :=
  let nn := vals.filter (fun c => !(isNullC c))
  sortByStable (fun a b => decide (b.2 < a.2))
    ((uniqFirst nn).map (fun k => (k, nn.count k)))

/-- Values of column `c` of `df` (label lookup; short rows read as missing). -/
def colVals (df : DF) (c : String) : List Cell :=
  match df.cols.findIdx? (fun x => x == c) with
  | some i => df.rows.map (fun r => r.getD i Cell.null)
  | none => []

/-- Slice `df[mask][valCol]` where the mask is predicate `p` over column `maskCol`. -/
def maskedCol (df : DF) (maskCol : String) (p : Cell → Bool) (valCol : String) : List Cell :=
  match df.cols.findIdx? (fun x => x == maskCol), df.cols.findIdx? (fun x => x == valCol) with
  | some i, some j =>
      (df.rows.filter (fun r => p (r.getD i Cell.null))).map (fun r => r.getD j Cell.null)
  | _, _ => []

/-- Grouping `df.groupby(keyCol)[valCol]`: group keys sorted ascending (pandas default
`sort=True`, null keys dropped), each with the grouped values. -/
def groupPairs (df : DF) (keyCol valCol : String) : List (Cell × List Cell) :=
  let ks := colVals df keyCol
  let vs := colVals df valCol
  let pairs := ks.zip vs
  let keys := sortByStable cellLtB (uniqFirst (ks.filter (fun c => !(isNullC c))))
  keys.map (fun k => (k, (pairs.filter (fun p => p.1 == k)).map (fun p => p.2)))

/-- pandas `Series.sum` (nulls skipped). -/
def sumCells (vs : List Cell) : ℤ := (vs.map cellNum).sum

/-- pandas `Series.count`: non-null entries; the mean of a column is the exact
fraction `sumCells vs / countCells vs`, consumed by the formatters. -/
def countCells (vs : List Cell) : ℕ := (vs.filter (fun c => !(isNullC c))).length

def groupbySum (df : DF) (keyCol valCol : String) : List (Cell × ℤ) :=
  (groupPairs df keyCol valCol).map (fun p => (p.1, sumCells p.2))

def groupbyNunique (df : DF) (keyCol valCol : String) : List (Cell × ℕ) :=
  (groupPairs df keyCol valCol).map (fun p => (p.1, nunique p.2))

/-- Rendering of `dict(series)` inside an f-string, natural-number values. -/
def renderDictN (l : List (Cell × ℕ)) : String :=
  "\x7b" ++ String.intercalate ", " (l.map (fun p => cellRepr p.1 ++ ": " ++ toString p.2)) ++ "\x7d"

/-- Rendering of `dict(series)` inside an f-string, integer values. -/
def renderDictZ (l : List (Cell × ℤ)) : String :=
  "\x7b" ++ String.intercalate ", " (l.map (fun p => cellRepr p.1 ++ ": " ++ toString p.2)) ++ "\x7d"

/-- Predicate `Series.str.contains` with pattern Asia|Asian, case=False, na=False, applied to one
cell: regex alternation over the lowercased string; non-strings give NaN which
`na=False` maps to False. -/
def cellMatchesAsia : Cell → Bool
  | Cell.s v => strContains (pyLower v) "asia" || strContains (pyLower v) "asian"
  | _ => false

/- ----------------------------------------------------------------
   be/rag/tabular_agent.py : Tier B heuristic analyses
   ---------------------------------------------------------------- -/

/-- Function `_analyze_asia_countries` of be/rag/tabular_agent.py. -/
def _analyze_asia_countries (df : DF) (region_cols country_cols : List String) : String :=
  match region_cols, country_cols with
  | region_col :: _, country_col :: _ =>
    let asiaVals := maskedCol df region_col cellMatchesAsia country_col
    let anyAsia := (colVals df region_col).any cellMatchesAsia
    let asia_countries := if anyAsia then nunique asiaVals else 0
    if 0 < asia_countries then
      let country_list := uniqFirst asiaVals
      let base := "**Asia Region Analysis:**\n"
        ++ "- Number of countries in Asia: **" ++ toString asia_countries ++ "**\n"
        ++ "- Countries: " ++ String.intercalate ", " ((country_list.take 10).map cellStr)
      if 10 < country_list.length then
        base ++ " (and " ++ toString (country_list.length - 10) ++ " more)"
      else base
    else
      "No countries found with \x27Asia\x27 in the " ++ region_col ++ " column."
  | _, _ => ""

/-- Function `_analyze_regions` of be/rag/tabular_agent.py. -/
def _analyze_regions (df : DF) (region_cols country_cols sales_cols : List String) : String :=
  match region_cols with
  | [] => ""
  | region_col :: _ =>
    let vc := valueCounts (colVals df region_col)
    let r1 := "**Regional Analysis:**\n"
      ++ "- Regions found: " ++ String.intercalate ", " ((vc.take 5).map (fun p => cellStr p.1)) ++ "\n"
    let r2 :=
      match country_cols with
      | country_col :: _ =>
        r1 ++ "- Countries per region: " ++ renderDictN (groupbyNunique df region_col country_col) ++ "\n"
      | [] => r1
    match sales_cols with
    | sales_col :: _ =>
      r2 ++ "- Sales by region: " ++ renderDictZ (groupbySum df region_col sales_col)
    | [] => r2

/-- Function `_count_analysis` of be/rag/tabular_agent.py (`question` arrives already
lowercased from the caller). -/
def _count_analysis (df : DF) (country_cols region_cols : List String) (question : String) : String :=
  let base := "**Count Analysis:**\n"
  match country_cols with
  | [] => base
  | country_col :: _ =>
    let r1 := base ++ "- Total unique countries: **"
      ++ toString (nunique (colVals df country_col)) ++ "**\n"
    match region_cols with
    | region_col :: _ =>
      if strContains question "asia" then
        let anyAsia := (colVals df region_col).any cellMatchesAsia
        let m := if anyAsia then nunique (maskedCol df region_col cellMatchesAsia country_col) else 0
        r1 ++ "- Countries in Asia: **" ++ toString m ++ "**"
      else r1
    | [] => r1

/-- Function `_sales_analysis` of be/rag/tabular_agent.py. -/
def _sales_analysis (df : DF) (sales_cols region_cols country_cols : List String)
    (question : String) : String :=
  let ql := pyLower question
  let primary := sales_cols.head?
  let revenue_cols := df.cols.filter (fun c => ["revenue", "sales"].any (fun w => strContains (pyLower c) w))
  let profit_cols := df.cols.filter (fun c => strContains (pyLower c) "profit")
  let _cost_cols := df.cols.filter (fun c => strContains (pyLower c) "cost")
  let r0 := "**Financial Analysis:**\n"
  let r1 :=
    match strContains ql "revenue", revenue_cols with
    | true, col :: _ =>
      r0 ++ "- Total Revenue: " ++ format2f (sumCells (colVals df col)) 1 ++ "\n"
         ++ "- Average Revenue: " ++ format2f (sumCells (colVals df col)) (countCells (colVals df col)) ++ "\n"
    | _, _ =>
      match strContains ql "profit", profit_cols with
      | true, col :: _ =>
        r0 ++ "- Total Profit: " ++ format2f (sumCells (colVals df col)) 1 ++ "\n"
           ++ "- Average Profit: " ++ format2f (sumCells (colVals df col)) (countCells (colVals df col)) ++ "\n"
      | _, _ =>
        match primary with
        | some col =>
          r0 ++ "- Total " ++ col ++ ": " ++ format2f (sumCells (colVals df col)) 1 ++ "\n"
             ++ "- Average " ++ col ++ ": " ++ format2f (sumCells (colVals df col)) (countCells (colVals df col)) ++ "\n"
        | none => r0
  let r2 :=
    match region_cols, ["region", "by region", "regional"].any (fun w => strContains ql w), primary with
    | region_col :: _, true, some pcol =>
      let regional := sortByStable (fun a b => decide (b.2 < a.2)) (groupbySum df region_col pcol)
      r1 ++ "- Top 3 regions: " ++ renderDictZ (regional.take 3) ++ "\n"
    | _, _, _ => r1
  match country_cols, ["country", "by country"].any (fun w => strContains ql w), primary with
  | country_col :: _, true, some pcol =>
    let perCountry := sortByStable (fun a b => decide (b.2 < a.2)) (groupbySum df country_col pcol)
    r2 ++ "- Top 3 countries: " ++ renderDictZ (perCountry.take 3)
  | _, _, _ => r2

/-- Function `_analyze_items` of be/rag/tabular_agent.py (`region_cols` is accepted and
unused, as in the source; an empty `item_cols` would raise IndexError there,
caught by its own handler). -/
def _analyze_items (df : DF) (item_cols sales_cols : List String)
    (_region_cols : List String) : String :=
  match item_cols with
  | [] => "Error in item analysis: list index out of range"
  | item_col :: _ =>
    let r1 := "**Product/Item Analysis:**\n"
      ++ "- Unique items/products: **" ++ toString (nunique (colVals df item_col)) ++ "**\n"
      ++ "- Total records: " ++ toString df.rows.length ++ "\n"
      ++ "- Most frequent items: " ++ renderDictN ((valueCounts (colVals df item_col)).take 5) ++ "\n"
    match sales_cols with
    | sales_col :: _ =>
      let itemSales := sortByStable (fun a b => decide (b.2 < a.2)) (groupbySum df item_col sales_col)
      r1 ++ "- Top items by sales: " ++ renderDictZ (itemSales.take 3)
    | [] => r1

/-- Column dtype inference for `select_dtypes`: a column loads as numeric when
it has a numeric value and nothing but numerics and missing values; otherwise
(including an all-empty column) its dtype is object. -/
def isNumericCol (vals : List Cell) : Bool :=
  vals.any isNumCell && vals.all (fun c => isNumCell c || isNullC c)

def colMin (vals : List Cell) : ℤ :=
  match (vals.filter isNumCell).map cellNum with
  | [] => 0
  | x :: xs => xs.foldl (fun a b => if a ≤ b then a else b) x

def colMax (vals : List Cell) : ℤ :=
  match (vals.filter isNumCell).map cellNum with
  | [] => 0
  | x :: xs => xs.foldl (fun a b => if b ≤ a then a else b) x

/-- Function `_general_analysis` of be/rag/tabular_agent.py (its `question` parameter is
unused there as well). -/
def _general_analysis (df : DF) (_question : String) : String :=
  let r1 := "**Dataset Overview:**\n"
    ++ "- 📊 **Shape:** " ++ toString df.rows.length ++ " rows, " ++ toString df.cols.length ++ " columns\n"
    ++ "- 📋 **Columns:** " ++ String.intercalate ", " (df.cols.take 5)
  let r2 := if 5 < df.cols.length then r1 ++ " (and " ++ toString (df.cols.length - 5) ++ " more)" else r1
  let r3 := r2 ++ "\n"
  let categorical_cols := df.cols.filter (fun c => !(isNumericCol (colVals df c)))
  let numeric_cols := df.cols.filter (fun c => isNumericCol (colVals df c))
  let r4 :=
    if categorical_cols.isEmpty then r3
    else r3 ++ "\n**Key Categories:**\n"
      ++ String.join ((categorical_cols.take 3).map (fun col =>
          let u := nunique (colVals df col)
          if u ≤ 20 then
            "- **" ++ col ++ ":** " ++ toString u ++ " unique ("
              ++ String.intercalate ", " (((valueCounts (colVals df col)).take 5).map (fun p => cellStr p.1))
              ++ ")\n"
          else "- **" ++ col ++ ":** " ++ toString u ++ " unique values\n"))
  let r5 :=
    if numeric_cols.isEmpty then r4
    else r4 ++ "\n**Numeric Data:**\n"
      ++ String.join ((numeric_cols.take 3).map (fun col =>
          let v := colVals df col
          "- **" ++ col ++ ":** Range " ++ format1f (colMin v) 1 ++ " to " ++ format1f (colMax v) 1
            ++ ", Avg " ++ format1f (sumCells v) (countCells v) ++ "\n"))
  let suggestions :=
    (if df.cols.any (fun c => strContains (pyLower c) "region") then
      ["Try asking about regional comparisons"] else [])
    ++ (if df.cols.any (fun c => strContains (pyLower c) "country") then
      ["Ask about specific countries or country counts"] else [])
    ++ (if df.cols.any (fun c => ["sales", "revenue", "profit"].any (fun w => strContains (pyLower c) w)) then
      ["Query financial metrics and totals"] else [])
    ++ (if df.cols.any (fun c => strContains (pyLower c) "item" || strContains (pyLower c) "product") then
      ["Explore product/item analysis"] else [])
  if suggestions.isEmpty then r5
  else r5 ++ "\n**💡 Analysis Suggestions:** " ++ String.intercalate ", " suggestions

/- ----------------------------------------------------------------
   be/rag/tabular_agent.py : _basic_tabular_analysis and the reasoner
   ---------------------------------------------------------------- -/

/-- Result shape of the be/rag reasoner (the returned dict). -/
structure AnalysisResult where
  answer : String
  tables_used : List String
  previews : List String
  analysis_type : String
deriving DecidableEq

def regionWords : List String := ["region", "continent", "area", "zone"]
def countryWords : List String := ["country", "nation", "state"]
def salesWords : List String := ["sales", "revenue", "amount", "value"]
def itemWords : List String := ["item", "product", "type"]

/-- Per-table body of the loop in `_basic_tabular_analysis` (be/rag,
lines 191-260).  `ql` is the lowercased question.  Returns the entry appended
to `answers`, or `none` when the `continue` for an empty data frame skips the
append (the built "Empty sheet" parts are discarded with it).  The broad
`except` of the source only guards pandas exceptions; every helper here is
total, so that arm is unreachable in the model. -/
def analyzeTable (ql label : String) (df : DF) : Option String :=
  let region_cols := df.cols.filter (fun c => regionWords.any (fun w => strContains (pyLower c) w))
  let country_cols := df.cols.filter (fun c => countryWords.any (fun w => strContains (pyLower c) w))
  let sales_cols := df.cols.filter (fun c => salesWords.any (fun w => strContains (pyLower c) w))
  if df.rows.length = 0 then none
  else
    let parts0 : List String := []
    let asia :=
      if (["asia", "asian"].any (strContains ql)) &&
         (["countries", "country", "count", "number", "how many"].any (strContains ql)) then
        _analyze_asia_countries df region_cols country_cols
      else ""
    let parts1 := if asia = "" then parts0 else parts0 ++ [asia]
    let perf1 := !(asia = "")
    let regional :=
      if (["region", "regional"].any (strContains ql)) && !region_cols.isEmpty && !perf1 then
        _analyze_regions df region_cols country_cols sales_cols
      else ""
    let parts2 := if regional = "" then parts1 else parts1 ++ [regional]
    let perf2 := perf1 || !(regional = "")
    let counting :=
      if (["count", "number", "how many"].any (strContains ql)) && !country_cols.isEmpty && !perf2 then
        _count_analysis df country_cols region_cols ql
      else ""
    let parts3 := if counting = "" then parts2 else parts2 ++ [counting]
    let perf3 := perf2 || !(counting = "")
    let sales :=
      if (["sales", "revenue", "profit", "cost", "total", "sum", "average"].any (strContains ql)) &&
         !sales_cols.isEmpty then
        _sales_analysis df sales_cols region_cols country_cols ql
      else ""
    let parts4 := if sales = "" then parts3 else parts3 ++ [sales]
    let perf4 := perf3 || !(sales = "")
    let item_cols := df.cols.filter (fun c => itemWords.any (fun w => strContains (pyLower c) w))
    let items :=
      if (itemWords.any (strContains ql)) && !item_cols.isEmpty then
        _analyze_items df item_cols sales_cols region_cols
      else ""
    let parts5 := if items = "" then parts4 else parts4 ++ [items]
    let perf5 := perf4 || !(items = "")
    let parts6 := if perf5 then parts5 else parts5 ++ [_general_analysis df ql]
    some ("**" ++ label ++ ":**\n" ++ String.intercalate "\n" parts6)

/-- Function `_basic_tabular_analysis` of be/rag/tabular_agent.py.  `toS` stands for the
external pandas rendering `df.head(5).to_string(index=False)` used only in the
previews. -/
def _basic_tabular_analysis (toS : DF → String) (question : String)
    (tables : List (String × DF)) : AnalysisResult :=
  if tables.isEmpty then
    { answer := "No data tables available for analysis.",
      tables_used := [], previews := [], analysis_type := "no_data" }
  else
    let ql := pyLower question
    { answer := String.intercalate "\n\n" (tables.filterMap (fun p => analyzeTable ql p.1 p.2)),
      tables_used := tables.map (fun p => p.1),
      previews := tables.map (fun p =>
        p.1 ++ " (Shape: (" ++ toString p.2.rows.length ++ ", " ++ toString p.2.cols.length
          ++ ")):\n" ++ toS p.2),
      analysis_type := "enhanced_basic" }

namespace be

/-- Function `answer_with_pandasai` of be/rag/tabular_agent.py.  `tierA` stands for the
whole enhanced-agent attempt (import, event-loop plumbing, generative call):
`none` models ImportError, a raised exception, or the executor timeout, all of
which fall through to Tier B.  The final `except` around Tier B is unreachable
because the Tier B model is total. -/
def answer_with_pandasai (tierA : String → List (String × DF) → Option AnalysisResult)
    (toS : DF → String) (question : String) (tables : List (String × DF)) : AnalysisResult :=
  if tables.isEmpty then
    { answer := "Unable to analyze tabular data due to download timeouts. The attachment files may be large or the server may be slow. Please try with smaller files or check your connection.",
      tables_used := [], previews := [], analysis_type := "no_data_timeout" }
  else
    match tierA question tables with
    | some r => r
    | none => _basic_tabular_analysis toS question tables

end be

/- ----------------------------------------------------------------
   The tabular loaders of backend/rag and be/rag
   ---------------------------------------------------------------- -/

/-- One spec dict handed to `load_dataframes`. -/
structure TableSpec where
  blob_uri : Option String
  filename : Option String
  sheet : Option String
deriving DecidableEq

/-- Python truthiness of an optional string. -/
def truthyS : Option String → Bool
  | none => false
  | some s => !(s == "")

/-- Python `o or dflt` for an optional string. -/
def optStr (o : Option String) (dflt : String) : String :=
  match o with
  | some s => if s == "" then dflt else s
  | none => dflt

/-- External collaborators of the loaders: blob fetch (HTTP client plus byte
cache) and the pandas CSV/Excel readers; `Except.error` models a raised
exception with its message. -/
structure FetchEnv where
  fetch : String → Except String (List ℕ)
  parseCSV : List ℕ → Except String DF
  parseExcelSheet : List ℕ → String → Except String DF
  parseExcelFirst : List ℕ → Except String DF

namespace be

/-- Loop of `load_dataframes` (be/rag/tabular_agent.py): enumerate index `i`,
accumulator `out`; every failure of fetch or parse skips the entry. -/
def load_aux (env : FetchEnv) : List TableSpec → ℕ → List (String × DF) → List (String × DF)
  | [], _, out => out
  | spec :: rest, i, out =>
    let fname := pyLower (optStr spec.filename "")
    let label := optStr spec.filename ("table_" ++ toString i)
    if !(truthyS spec.blob_uri) then load_aux env rest (i + 1) out
    else
      match env.fetch (spec.blob_uri.getD "") with
      | Except.error _ => load_aux env rest (i + 1) out
      | Except.ok data =>
        if strEndsWith fname ".csv" then
          match env.parseCSV data with
          | Except.ok df => load_aux env rest (i + 1) (out ++ [(label, df)])
          | Except.error _ => load_aux env rest (i + 1) out
        else if strEndsWith fname ".xlsx" || strEndsWith fname ".xlsm" then
          if truthyS spec.sheet then
            match env.parseExcelSheet data (spec.sheet.getD "") with
            | Except.ok df => load_aux env rest (i + 1) (out ++ [(label ++ ":" ++ spec.sheet.getD "", df)])
            | Except.error _ => load_aux env rest (i + 1) out
          else
            match env.parseExcelFirst data with
            | Except.ok df => load_aux env rest (i + 1) (out ++ [(label, df)])
            | Except.error _ => load_aux env rest (i + 1) out
        else load_aux env rest (i + 1) out

/-- Function `load_dataframes` of be/rag/tabular_agent.py. -/
def load_dataframes (env : FetchEnv) (specs : List TableSpec) : List (String × DF) :=
  load_aux env specs 0 []

/-- The per-entry loading contract as the specification words it (section 4.3):
resolve the locator, fetch bytes, dispatch on the filename extension, label a
sheet-scoped dataset `filename:sheet`; any fetch or parse failure, a missing
locator, or an unsupported extension drops the entry (`none`) with no partial
dataset. -/
def loaderSpecEntry (env : FetchEnv) (i : ℕ) (spec : TableSpec) : Option (String × DF) :=
  let fname := pyLower (optStr spec.filename "")
  let label := optStr spec.filename ("table_" ++ toString i)
  if !(truthyS spec.blob_uri) then none
  else
    match env.fetch (spec.blob_uri.getD "") with
    | Except.error _ => none
    | Except.ok data =>
      if strEndsWith fname ".csv" then
        match env.parseCSV data with
        | Except.ok df => some (label, df)
        | Except.error _ => none
      else if strEndsWith fname ".xlsx" || strEndsWith fname ".xlsm" then
        if truthyS spec.sheet then
          match env.parseExcelSheet data (spec.sheet.getD "") with
          | Except.ok df => some (label ++ ":" ++ spec.sheet.getD "", df)
          | Except.error _ => none
        else
          match env.parseExcelFirst data with
          | Except.ok df => some (label, df)
          | Except.error _ => none
      else none

end be

namespace backend

/-- Result shape of the backend/rag reasoner (no `analysis_type` key). -/
structure AnswerB where
  answer : String
  tables_used : List String
  previews : List String
deriving DecidableEq

/-- Function `answer_with_pandasai` of backend/rag/tabular_agent.py: the PandasAI stub
(`ans = "haha"`) never raises, so the try-branch always returns. -/
def answer_with_pandasai (toS : DF → String) (_question : String)
    (tables : List (String × DF)) : AnswerB :=
  { answer := String.intercalate "\n" (tables.map (fun p => p.1 ++ ": haha")),
    tables_used := tables.map (fun p => p.1),
    previews := tables.map (fun p => p.1 ++ " head:\n" ++ toS p.2) }

/-- The placeholder one-column frame holding str(e) under the _error column,
appended by the backend/rag loader when parsing fails. -/
def errorDF (e : String) : DF := { cols := ["_error"], rows := [[Cell.s e]] }

/-- Loop of `load_dataframes` (backend/rag/tabular_agent.py): the fetch happens
outside the try, so a fetch error propagates out of the whole call; a parse
error appends the `_error` placeholder frame. -/
def load_aux (env : FetchEnv) : List TableSpec → List (String × DF) →
    Except String (List (String × DF))
  | [], out => Except.ok out
  | spec :: rest, out =>
    let fname := pyLower (optStr spec.filename "")
    if !(truthyS spec.blob_uri) then load_aux env rest out
    else
      match env.fetch (spec.blob_uri.getD "") with
      | Except.error e => Except.error e
      | Except.ok data =>
        let label := optStr spec.filename "table"
        if strEndsWith fname ".csv" then
          match env.parseCSV data with
          | Except.ok df => load_aux env rest (out ++ [(label, df)])
          | Except.error e => load_aux env rest (out ++ [(label, errorDF e)])
        else if strEndsWith fname ".xlsx" || strEndsWith fname ".xlsm" then
          if truthyS spec.sheet then
            match env.parseExcelSheet data (spec.sheet.getD "") with
            | Except.ok df => load_aux env rest (out ++ [(label ++ ":" ++ spec.sheet.getD "", df)])
            | Except.error e => load_aux env rest (out ++ [(label, errorDF e)])
          else
            match env.parseExcelFirst data with
            | Except.ok df => load_aux env rest (out ++ [(label, df)])
            | Except.error e => load_aux env rest (out ++ [(label, errorDF e)])
        else load_aux env rest out

/-- Function `load_dataframes` of backend/rag/tabular_agent.py. -/
def load_dataframes (env : FetchEnv) (specs : List TableSpec) :
    Except String (List (String × DF)) :=
  load_aux env specs []

end backend

/- ----------------------------------------------------------------
   backend/rag/api.py : _build_prompt
   ---------------------------------------------------------------- -/

/-- The metadata fields `_build_prompt` reads from a context. -/
structure CtxMeta where
  filename : Option String
  subject : Option String
  page : Option ℕ
  sheet : Option String

/-- A retrieved context: metadata plus text. -/
structure Ctx where
  meta : CtxMeta
  text : String

/-- Python truthiness of an optional integer (`m.get("page")`). -/
def truthyN : Option ℕ → Bool
  | none => false
  | some n => !(n == 0)

/-- Python expression `m.get("filename") or m.get("subject") or "source"`. -/
def srcOf (m : CtxMeta) : String :=
  if truthyS m.filename then m.filename.getD ""
  else if truthyS m.subject then m.subject.getD ""
  else "source"

/-- The location tag of one context block: page if truthy, else sheet if
truthy, else empty — computed from the metadata fields only. -/
def locOf (m : CtxMeta) : String :=
  if truthyN m.page then "(page " ++ toString (m.page.getD 0) ++ ")"
  else if truthyS m.sheet then "(sheet " ++ m.sheet.getD "" ++ ")"
  else ""

/-- One numbered block (`enumerate(contexts, start=1)`). -/
def blockOf (i : ℕ) (ctx : Ctx) : String :=
  "[" ++ toString i ++ "] " ++ srcOf ctx.meta ++ " " ++ locOf ctx.meta
    ++ "\n" ++ ctx.text ++ "\n"

/-- The fixed instruction preamble of `_build_prompt`. -/
def promptHeader : String :=
  "You are a helpful assistant. Answer using ONLY the provided context.\nIf the answer isn\x27t in the context, say you don\x27t know.\nCite sources with page/sheet info if present.\n\n"

/-- Function `_build_prompt` of backend/rag/api.py. -/
def _build_prompt (question : String) (contexts : List Ctx) : String :=
  promptHeader ++ "Context:\n"
    ++ String.intercalate "\n" (contexts.enum.map (fun p => blockOf (p.1 + 1) p.2))
    ++ "\nQuestion: " ++ question ++ "\nAnswer:"

/- ----------------------------------------------------------------
   Concrete scenario data used by the claims
   ---------------------------------------------------------------- -/

/-- Region/Country table of the Asia-count scenario. -/
def dfAsia : DF :=
  { cols := ["Region", "Country"],
    rows := [[Cell.s "Asia", Cell.s "India"],
             [Cell.s "Asia", Cell.s "China"],
             [Cell.s "Europe", Cell.s "Germany"]] }

/-- Region/Sales table of the group-by aggregate scenario. -/
def dfSales : DF :=
  { cols := ["Region", "Sales"],
    rows := [[Cell.s "North", Cell.n 100],
             [Cell.s "South", Cell.n 200],
             [Cell.s "North", Cell.n 50]] }

def dfA : DF := { cols := ["x"], rows := [[Cell.n 1]] }
def dfC : DF := { cols := ["x"], rows := [[Cell.n 3]] }

/-- Concrete collaborator environment for the loader scenarios: locators a and
c resolve and parse, locator bad raises a network error, locator b2 resolves
but its bytes fail to parse. -/
def envHttp : FetchEnv :=
  { fetch := fun u =>
      if u == "http://a.csv" then Except.ok [65]
      else if u == "http://c.csv" then Except.ok [67]
      else if u == "http://b2.csv" then Except.ok [66]
      else Except.error "Network error: boom",
    parseCSV := fun b =>
      if b == [65] then Except.ok dfA
      else if b == [67] then Except.ok dfC
      else Except.error "ParserError: bad bytes",
    parseExcelSheet := fun _ _ => Except.error "unused",
    parseExcelFirst := fun _ => Except.error "unused" }

def specA : TableSpec := { blob_uri := some "http://a.csv", filename := some "a.csv", sheet := none }
def specB : TableSpec := { blob_uri := some "http://bad", filename := some "b.csv", sheet := none }
def specB2 : TableSpec := { blob_uri := some "http://b2.csv", filename := some "b2.csv", sheet := none }
def specC : TableSpec := { blob_uri := some "http://c.csv", filename := some "c.csv", sheet := none }

/- ----------------------------------------------------------------
   Theorems settling the claims
   ---------------------------------------------------------------- -/

/-- C1: for every question and every outcome of the primary classifier
(success, failure, or malformed output), `classify_intent` returns a total
result — a `Route` (the four-valued enumeration) paired with a confidence in
[0,1] — and with the primary path failing, `classify_intent` on the empty
question yields `(unknown, 0)`. -/
theorem c1_classify_intent_totality :
    (∀ (primary : Option LLMOutcome) (question : String),
        0 ≤ (classify_intent primary question).2 ∧ (classify_intent primary question).2 ≤ 1)
  ∧ classify_intent none "" = (Route.unknown, 0) := by
  constructor
  · intro primary question
    cases primary with
    | none =>
        simp only [classify_intent, _classify_intent_heuristic]
        split
        · norm_num
        · split
          · norm_num
          · split <;> norm_num
    | some o =>
        cases o with
        | parsed r c =>
            exact ⟨le_max_left 0 _, max_le (by norm_num) (min_le_left 1 c)⟩
        | unparsed t =>
            simp only [classify_intent, _classify_intent_llm]
            split
            · norm_num
            · split
              · norm_num
              · split <;> norm_num
  · rfl

/-- C10: caching blob bytes and reading them back under the same
(blob_uri, filename) key, with no interleaving write, returns exactly the
cached bytes — for any digest function standing in for md5. -/
theorem c10_blob_cache_roundtrip (digest : String → String) (u f : String)
    (d : List ℕ) (st : List (String × List ℕ)) :
    get_cached_blob_data digest u f (cache_blob_data digest u f d st) = some d := by
  simp [get_cached_blob_data, cache_blob_data, List.lookup]

/-- C4: evaluating the Tier B heuristic on a single table with zero data rows.
No aggregate or division is attempted (the function is total and returns
immediately), but the produced answer is the EMPTY string, not a message
stating that the sheet is empty: the `continue` in the source skips the
`answers.append` line, discarding the built "Empty sheet" parts.  This
evaluates the code at the failing input of the claim, for any question and any
column list. -/
theorem c4_empty_table_answer (toS : DF → String) (question : String) (cols : List String) :
    (_basic_tabular_analysis toS question [("t", { cols := cols, rows := [] })]).answer = "" := rfl

/-- C5: on the Region/Country table [(Asia,India),(Asia,China),(Europe,Germany)],
the question "how many countries are in Asia?" under the Tier B fallback
reports exactly 2 countries and lists India and China (for any preview
renderer). -/
theorem c5_asia_two_countries (toS : DF → String) :
    (_basic_tabular_analysis toS "how many countries are in Asia?" [("t", dfAsia)]).answer
      = "**t:**\n**Asia Region Analysis:**\n- Number of countries in Asia: **2**\n- Countries: India, China" := rfl

/-- C6: on the Region/Sales table [(North,100),(South,200),(North,50)], the
question "total sales by region" under the Tier B fallback produces an answer
whose rendered aggregate "- Top 3 regions:" contains North=150 and South=200
sorted descending by value (South first); the whole answer is computed
explicitly. -/
theorem c6_sales_by_region_descending (toS : DF → String) :
    (_basic_tabular_analysis toS "total sales by region" [("t", dfSales)]).answer
      = "**t:**\n**Regional Analysis:**\n- Regions found: North, South\n- Sales by region: \x7b\x27North\x27: 150, \x27South\x27: 200\x7d\n**Financial Analysis:**\n- Total Sales: 350.00\n- Average Sales: 116.67\n- Top 3 regions: \x7b\x27South\x27: 200, \x27North\x27: 150\x7d\n"
  ∧ strContains
      ((_basic_tabular_analysis toS "total sales by region" [("t", dfSales)]).answer)
      "- Top 3 regions: \x7b\x27South\x27: 200, \x27North\x27: 150\x7d" = true :=
  ⟨rfl, rfl⟩

/-- C7 counterexample: the backend/rag `answer_with_pandasai` called with no
tables returns the empty answer string (joined over zero tables), not a fixed
explanatory answer, so the claim as stated fails on that implementation. -/
theorem c7_backend_empty_tables_counterexample :
    backend.answer_with_pandasai (fun _ => "") "q" []
      = { answer := "", tables_used := [], previews := [] } := rfl

/-- C7 (amended): the be/rag reasoner `answer_with_pandasai`, called with an
empty table sequence, returns the fixed explanatory answer with empty
tables_used and previews and analysis_type "no_data_timeout", for EVERY Tier A
oracle and preview renderer — hence without invoking Tier A (the result does
not depend on it) or Tier B (the result is the fixed record, not a Tier B
output). -/
theorem c7_be_empty_tables_fixed_answer
    (tierA : String → List (String × DF) → Option AnalysisResult)
    (toS : DF → String) (question : String) :
    be.answer_with_pandasai tierA toS question []
      = { answer := "Unable to analyze tabular data due to download timeouts. The attachment files may be large or the server may be slow. Please try with smaller files or check your connection.",
          tables_used := [], previews := [], analysis_type := "no_data_timeout" } := rfl

/-- C8: the prompt built by `_build_prompt` factors into the fixed header and
one block per context, in which the page/sheet location tag is `locOf` of that
own metadata of that context — and `locOf` is empty, or reproduces the metadata page
field, or (page falsy) reproduces the metadata sheet field; so no citation tag
is fabricated from anything but the metadata of the supplied contexts. -/
theorem c8_prompt_citations_trace_to_metadata :
    (∀ (question : String) (contexts : List Ctx),
      _build_prompt question contexts =
        promptHeader ++ "Context:\n"
          ++ String.intercalate "\n" (contexts.enum.map (fun p =>
              "[" ++ toString (p.1 + 1) ++ "] " ++ srcOf p.2.meta ++ " " ++ locOf p.2.meta
                ++ "\n" ++ p.2.text ++ "\n"))
          ++ "\nQuestion: " ++ question ++ "\nAnswer:")
  ∧ (∀ m : CtxMeta,
      locOf m = ""
      ∨ (∃ n : ℕ, m.page = some n ∧ n ≠ 0 ∧ locOf m = "(page " ++ toString n ++ ")")
      ∨ (truthyN m.page = false ∧
          ∃ s : String, m.sheet = some s ∧ s ≠ "" ∧ locOf m = "(sheet " ++ s ++ ")")) := by
  constructor
  · intro question contexts
    simp only [_build_prompt, blockOf]
  · intro m
    rcases hp : m.page with _ | n
    · rcases hs : m.sheet with _ | s
      · exact Or.inl (by simp [locOf, truthyN, truthyS, hp, hs])
      · by_cases h : s = ""
        · exact Or.inl (by simp [locOf, truthyN, truthyS, hp, hs, h])
        · refine Or.inr (Or.inr ⟨by simp [truthyN, hp], s, rfl, h, ?_⟩)
          simp [locOf, truthyN, truthyS, hp, hs, h]
    · by_cases hn : n = 0
      · subst hn
        rcases hs : m.sheet with _ | s
        · exact Or.inl (by simp [locOf, truthyN, truthyS, hp, hs])
        · by_cases h : s = ""
          · exact Or.inl (by simp [locOf, truthyN, truthyS, hp, hs, h])
          · refine Or.inr (Or.inr ⟨by simp [truthyN, hp], s, rfl, h, ?_⟩)
            simp [locOf, truthyN, truthyS, hp, hs, h]
      · refine Or.inr (Or.inl ⟨n, rfl, hn, ?_⟩)
        simp [locOf, truthyN, hp, hn]

/-- C3: the fallback classification is a pure function of the lowercased
question: blank/whitespace-only yields (unknown, 0); otherwise any of the fixed
TABULAR_HINTS tokens (the list of the code, which writes the by/vs/per
tokens with a trailing space) yields (attachment_tabular, 0.7); otherwise
mentioning "attachment" or "pdf" yields (attachment_semantic, 0.6); otherwise
(mail_body_semantic, 0.6). -/
theorem c3_heuristic_spec (q : String) :
    (pyStrip (pyLower q) = "" → _classify_intent_heuristic q = (Route.unknown, 0))
  ∧ (pyStrip (pyLower q) ≠ "" →
      TABULAR_HINTS.any (fun h => strContains (pyLower q) h) = true →
      _classify_intent_heuristic q = (Route.attachment_tabular, 7/10))
  ∧ (pyStrip (pyLower q) ≠ "" →
      TABULAR_HINTS.any (fun h => strContains (pyLower q) h) = false →
      (strContains (pyLower q) "attachment" || strContains (pyLower q) "pdf") = true →
      _classify_intent_heuristic q = (Route.attachment_semantic, 6/10))
  ∧ (pyStrip (pyLower q) ≠ "" →
      TABULAR_HINTS.any (fun h => strContains (pyLower q) h) = false →
      (strContains (pyLower q) "attachment" || strContains (pyLower q) "pdf") = false →
      _classify_intent_heuristic q = (Route.mail_body_semantic, 6/10)) := by
  refine ⟨fun h1 => ?_, fun h1 h2 => ?_, fun h1 h2 h3 => ?_, fun h1 h2 h3 => ?_⟩
  · simp [_classify_intent_heuristic, h1]
  · simp [_classify_intent_heuristic, h1, h2]
  · simp [_classify_intent_heuristic, h1, h2, h3]
  · simp [_classify_intent_heuristic, h1, h2, h3]

/-- C3 witness: a concrete tabular-hint question classified by the fallback. -/
theorem c3_heuristic_spec_witness :
    _classify_intent_heuristic "average revenue by region" = (Route.attachment_tabular, 7/10) :=
  (c3_heuristic_spec "average revenue by region").2.1 (by decide) (by decide)

/-- One unrolling of the be/rag loader loop equals the per-entry contract
applied to the head spec. -/
theorem be_load_aux_step (env : FetchEnv) (spec : TableSpec) (rest : List TableSpec)
    (i : ℕ) (out : List (String × DF)) :
    be.load_aux env (spec :: rest) i out =
      match be.loaderSpecEntry env i spec with
      | some x => be.load_aux env rest (i + 1) (out ++ [x])
      | none => be.load_aux env rest (i + 1) out := by
  simp only [be.load_aux, be.loaderSpecEntry]
  cases h1 : truthyS spec.blob_uri with
  | false => simp
  | true =>
    simp only [Bool.not_true, Bool.false_eq_true, if_false]
    cases hf : env.fetch (spec.blob_uri.getD "") with
    | error e => simp
    | ok data =>
      cases h2 : strEndsWith (pyLower (optStr spec.filename "")) ".csv" with
      | true =>
        simp only [if_true]
        cases hp : env.parseCSV data with
        | ok df => simp
        | error e => simp
      | false =>
        simp only [Bool.false_eq_true, if_false]
        cases h3 : (strEndsWith (pyLower (optStr spec.filename "")) ".xlsx"
            || strEndsWith (pyLower (optStr spec.filename "")) ".xlsm") with
        | false => simp
        | true =>
          simp only [if_true]
          cases h4 : truthyS spec.sheet with
          | true =>
            simp only [if_true]
            cases hp : env.parseExcelSheet data (spec.sheet.getD "") with
            | ok df => simp
            | error e => simp
          | false =>
            simp only [Bool.false_eq_true, if_false]
            cases hp : env.parseExcelFirst data with
            | ok df => simp
            | error e => simp

/-- The be/rag loader loop is the filterMap of the per-entry contract over the
enumerated remaining specs, appended to the accumulator. -/
theorem be_load_aux_spec (env : FetchEnv) (specs : List TableSpec) :
    ∀ (i : ℕ) (out : List (String × DF)),
      be.load_aux env specs i out
        = out ++ (specs.enumFrom i).filterMap (fun p => be.loaderSpecEntry env p.1 p.2) := by
  induction specs with
  | nil => intro i out; simp [be.load_aux]
  | cons spec rest ih =>
    intro i out
    rw [be_load_aux_step]
    cases h : be.loaderSpecEntry env i spec with
    | some x => simp [ih, List.enumFrom, h]
    | none => simp [ih, List.enumFrom, h]

/-- C2 counterexample: on the backend/rag `load_dataframes`, a failing fetch
for the middle spec aborts the whole call with the raised error (the claim says
the entry is omitted and the rest survive), and a failing parse yields a
placeholder `_error` dataset in the output (the claim says no placeholder is
ever returned). -/
theorem c2_backend_loader_counterexample :
    backend.load_dataframes envHttp [specA, specB, specC]
      = Except.error "Network error: boom"
  ∧ backend.load_dataframes envHttp [specA, specB2, specC]
      = Except.ok
          [("a.csv", dfA), ("b2.csv", backend.errorDF "ParserError: bad bytes"), ("c.csv", dfC)] :=
  ⟨rfl, rfl⟩

/-- C2 (amended): the be/rag `load_dataframes` is order-preserving with specs
and drops exactly the entries whose fetch or parse fails, never raising and
never emitting a partial or placeholder dataset: it equals the filterMap of the
independent per-entry contract over the enumerated specs; on the concrete
[valid, invalid-locator, valid] scenario it returns exactly the two surviving
entries in order. -/
theorem c2_be_loader_per_entry :
    (∀ (env : FetchEnv) (specs : List TableSpec),
      be.load_dataframes env specs
        = specs.enum.filterMap (fun p => be.loaderSpecEntry env p.1 p.2))
  ∧ be.load_dataframes envHttp [specA, specB, specC] = [("a.csv", dfA), ("c.csv", dfC)] := by
  constructor
  · intro env specs
    have h := be_load_aux_spec env specs 0 []
    simpa [be.load_dataframes, List.enum] using h
  · rfl

/-- Every word produced by the split worker is non-empty and whitespace-free,
given a whitespace-free accumulator. -/
theorem pyWordsAux_sound (cs : List Char) :
    ∀ acc, (∀ ch ∈ acc, ch.isWhitespace = false) →
      ∀ w ∈ pyWordsAux cs acc, w ≠ [] ∧ ∀ ch ∈ w, ch.isWhitespace = false := by
  induction cs with
  | nil =>
    intro acc hacc w hw
    by_cases h : acc = []
    · simp [pyWordsAux, h] at hw
    · simp only [pyWordsAux, h, if_false] at hw
      simp only [List.mem_singleton] at hw
      subst hw
      refine ⟨by simpa using h, ?_⟩
      intro ch hch
      exact hacc ch (by simpa using hch)
  | cons c cs ih =>
    intro acc hacc w hw
    cases hws : c.isWhitespace with
    | true =>
      by_cases h : acc = []
      · simp only [pyWordsAux, hws, h, if_true] at hw
        exact ih [] (by simp) w hw
      · simp only [pyWordsAux, hws, h, if_true, if_false, List.mem_cons] at hw
        rcases hw with hw | hw
        · subst hw
          refine ⟨by simpa using h, ?_⟩
          intro ch hch
          exact hacc ch (by simpa using hch)
        · exact ih [] (by simp) w hw
    | false =>
      simp only [pyWordsAux, hws, Bool.false_eq_true, if_false] at hw
      refine ih (c :: acc) ?_ w hw
      intro ch hch
      rcases List.mem_cons.mp hch with rfl | hch
      · exact hws
      · exact hacc ch hch

/-- Every word of `pyWords` is non-empty and whitespace-free. -/
theorem pyWords_sound (cs : List Char) :
    ∀ w ∈ pyWords cs, w ≠ [] ∧ ∀ ch ∈ w, ch.isWhitespace = false :=
  pyWordsAux_sound cs [] (by simp)

/-- Scanning a whitespace-free run just extends the accumulator. -/
theorem pyWordsAux_no_ws_run (w : List Char) :
    ∀ (cs acc : List Char), (∀ ch ∈ w, ch.isWhitespace = false) →
      pyWordsAux (w ++ cs) acc = pyWordsAux cs (w.reverse ++ acc) := by
  induction w with
  | nil => intro cs acc _; simp
  | cons c w ih =>
    intro cs acc h
    have hc : c.isWhitespace = false := h c (by simp)
    have hw : ∀ ch ∈ w, ch.isWhitespace = false := fun ch hch => h ch (by simp [hch])
    simp only [List.cons_append, pyWordsAux, hc, Bool.false_eq_true, if_false]
    show pyWordsAux (w ++ cs) (c :: acc) = pyWordsAux cs ((c :: w).reverse ++ acc)
    rw [ih cs (c :: acc) hw]
    simp

/-- Joining non-empty whitespace-free words with single spaces and re-splitting
returns the same words. -/
theorem pyWords_joinSpace (ws : List (List Char)) :
    ws ≠ [] → (∀ w ∈ ws, w ≠ [] ∧ ∀ ch ∈ w, ch.isWhitespace = false) →
      pyWords (joinSpace ws) = ws := by
  induction ws with
  | nil => intro h; exact absurd rfl h
  | cons w ws ih =>
    intro _ hall
    have hwne : w ≠ [] := (hall w (by simp)).1
    have hw : ∀ ch ∈ w, ch.isWhitespace = false := (hall w (by simp)).2
    cases ws with
    | nil =>
      have h1 : pyWords (joinSpace [w]) = pyWordsAux (w ++ []) [] := by
        simp [pyWords, joinSpace]
      rw [h1, pyWordsAux_no_ws_run w [] [] hw]
      have h2 : w.reverse ≠ [] := by simpa using hwne
      simp [pyWordsAux, h2]
    | cons w2 ws2 =>
      have hjoin : joinSpace (w :: w2 :: ws2) = w ++ (Char.ofNat 32) :: joinSpace (w2 :: ws2) := rfl
      rw [show pyWords (joinSpace (w :: w2 :: ws2))
            = pyWordsAux (w ++ (Char.ofNat 32) :: joinSpace (w2 :: ws2)) [] from rfl]
      rw [pyWordsAux_no_ws_run w _ [] hw]
      have hsp : (Char.ofNat 32).isWhitespace = true := rfl
      have h2 : w.reverse ++ ([] : List Char) ≠ [] := by simpa using hwne
      simp only [pyWordsAux, hsp, if_true, h2, if_false, List.append_nil] at *
      have h3 : w.reverse ≠ [] := by simpa using hwne
      simp only [h3, if_false, List.reverse_reverse]
      rw [show pyWordsAux (joinSpace (w2 :: ws2)) [] = pyWords (joinSpace (w2 :: ws2)) from rfl]
      rw [ih (by simp) (fun x hx => hall x (by simp [hx]))]

/-- Every chunk produced by the loop (at the default parameters) is the
space-join of a slice of between 1 and 900 words starting inside the word
list. -/
theorem chunkLoop_chunks (ws : List (List Char)) (fuel : ℕ) :
    ∀ start, start < ws.length →
      ∀ c ∈ chunkLoop ws 900 80 fuel start,
        ∃ s k, 1 ≤ k ∧ k ≤ 900 ∧ s < ws.length ∧ c = joinSpace ((ws.drop s).take k) := by
  induction fuel with
  | zero => intro start _ c hc; simp [chunkLoop] at hc
  | succ fuel ih =>
    intro start hstart c hc
    simp only [chunkLoop, hstart, if_true] at hc
    have hmle : min ws.length (start + 900) ≤ ws.length := Nat.min_le_left _ _
    have hmri : min ws.length (start + 900) ≤ start + 900 := Nat.min_le_right _ _
    have hmgt : start < min ws.length (start + 900) := lt_min hstart (by omega)
    have hchoice := min_choice ws.length (start + 900)
    by_cases he : min ws.length (start + 900) = ws.length
    · rw [if_pos he] at hc
      simp only [List.mem_singleton] at hc
      exact ⟨start, min ws.length (start + 900) - start, by omega, by omega, hstart, hc⟩
    · rw [if_neg he] at hc
      rcases List.mem_cons.mp hc with hc | hc
      · exact ⟨start, min ws.length (start + 900) - start, by omega, by omega, hstart, hc⟩
      · have hnext : min ws.length (start + 900) - 80 < ws.length := by
          rcases hchoice with h | h <;> omega
        exact ih _ hnext c hc

/-- At the default parameters the loop value is independent of the fuel once
the fuel covers the remaining words: the while-loop of the source terminates. -/
theorem chunkLoop_fuel_stable (ws : List (List Char)) :
    ∀ f1 f2 start, ws.length - start ≤ f1 → ws.length - start ≤ f2 →
      chunkLoop ws 900 80 f1 start = chunkLoop ws 900 80 f2 start := by
  intro f1
  induction f1 with
  | zero =>
    intro f2 start h1 _
    have hs : ¬ start < ws.length := by omega
    cases f2 with
    | zero => rfl
    | succ f2 => simp [chunkLoop, hs]
  | succ f1 ih =>
    intro f2 start h1 h2
    by_cases hs : start < ws.length
    · cases f2 with
      | zero => omega
      | succ f2 =>
        simp only [chunkLoop, hs, if_true]
        by_cases he : min ws.length (start + 900) = ws.length
        · rw [if_pos he, if_pos he]
        · rw [if_neg he, if_neg he]
          have hmle : min ws.length (start + 900) ≤ ws.length := Nat.min_le_left _ _
          have hmgt : start < min ws.length (start + 900) := lt_min hs (by omega)
          have hchoice := min_choice ws.length (start + 900)
          congr 1
          apply ih
          · rcases hchoice with h | h <;> omega
          · rcases hchoice with h | h <;> omega
    · cases f2 with
      | zero => simp [chunkLoop, hs]
      | succ f2 => simp [chunkLoop, hs]

/-- C9: at the default parameters (max_words 900, overlap 80), `chunk_text`
terminates (the fuel-indexed loop is stable at fuel `words.length` and beyond),
returns the empty list exactly when the text has no words, and every returned
chunk is a non-empty string of at most 900 words. -/
theorem c9_chunk_text_props (text : String) :
    (chunk_text text 900 80 = [] ↔ pyWords text.data = [])
  ∧ (∀ c ∈ chunk_text text 900 80, c ≠ "" ∧ (pyWords c.data).length ≤ 900)
  ∧ (∀ f, (pyWords text.data).length ≤ f →
      chunkLoop (pyWords text.data) 900 80 f 0
        = chunkLoop (pyWords text.data) 900 80 (pyWords text.data).length 0) := by
  refine ⟨?_, ?_, ?_⟩
  · constructor
    · intro h
      by_contra hw
      simp only [chunk_text, hw, if_false] at h
      rw [List.map_eq_nil_iff] at h
      obtain ⟨w0, ws2, hws⟩ := List.exists_cons_of_ne_nil hw
      rw [hws] at h
      simp only [List.length_cons, chunkLoop] at h
      rw [if_pos (by simp)] at h
      split at h
      · simp at h
      · simp at h
    · intro h; simp [chunk_text, h]
  · intro c hc
    simp only [chunk_text] at hc
    by_cases hw : pyWords text.data = []
    · simp [hw] at hc
    · simp only [hw, if_false] at hc
      obtain ⟨l, hl, rfl⟩ := List.mem_map.mp hc
      obtain ⟨s, k, hk1, hk900, hslt, rfl⟩ :=
        chunkLoop_chunks (pyWords text.data) (pyWords text.data).length 0
          (List.length_pos.mpr hw) l hl
      have hsub : ((pyWords text.data).drop s).take k ⊆ pyWords text.data :=
        fun x hx => List.drop_subset _ _ (List.take_subset _ _ hx)
      have hall : ∀ w ∈ ((pyWords text.data).drop s).take k,
          w ≠ [] ∧ ∀ ch ∈ w, ch.isWhitespace = false :=
        fun w hww => pyWords_sound text.data w (hsub hww)
      have hlen : (((pyWords text.data).drop s).take k).length
          = min k ((pyWords text.data).length - s) := by
        simp [List.length_take, List.length_drop]
      have hpos : 0 < (((pyWords text.data).drop s).take k).length := by
        rw [hlen]; exact lt_min (by omega) (by omega)
      have hnn : ((pyWords text.data).drop s).take k ≠ [] := List.length_pos.mp hpos
      have hround := pyWords_joinSpace _ hnn hall
      constructor
      · intro hceq
        have hdata : joinSpace (((pyWords text.data).drop s).take k) = [] :=
          congrArg String.data hceq
        obtain ⟨w0, rest, hsl⟩ := List.exists_cons_of_ne_nil hnn
        have hw0 : w0 ≠ [] := (hall w0 (by rw [hsl]; simp)).1
        rw [hsl] at hdata
        cases rest with
        | nil => exact hw0 (by simpa [joinSpace] using hdata)
        | cons r t => simp [joinSpace] at hdata
      · show (pyWords (joinSpace (((pyWords text.data).drop s).take k))).length ≤ 900
        rw [hround, hlen]
        exact le_trans (Nat.min_le_left _ _) hk900
  · intro f hf
    exact chunkLoop_fuel_stable (pyWords text.data) f (pyWords text.data).length 0
      (by omega) (by omega)

/-- C9 witness: on the text "alpha beta" the single chunk "alpha beta" is
non-empty with at most 900 words, and fuel 5 already agrees with the stable
value. -/
theorem c9_chunk_text_props_witness :
    (("alpha beta" : String) ≠ "" ∧ (pyWords ("alpha beta" : String).data).length ≤ 900)
  ∧ chunkLoop (pyWords ("alpha beta" : String).data) 900 80 5 0
      = chunkLoop (pyWords ("alpha beta" : String).data) 900 80
          (pyWords ("alpha beta" : String).data).length 0 :=
  ⟨(c9_chunk_text_props "alpha beta").2.1 "alpha beta" (by decide),
   (c9_chunk_text_props "alpha beta").2.2 5 (by decide)⟩
